import Mathlib

/-!
Shallow embedding of Phant80m/tui (src/main.rs): a terminal app with a
text-input buffer, a scrollable entry list, a popup toggle, an event loop and
a render pass. Rust strings are modelled as lists of Unicode scalar values
(`List Char`) together with their UTF-8 byte length; `usize` arithmetic is
modelled on `Nat` (saturating subtraction coincides with `Nat` subtraction).
Calls that panic in Rust are modelled with `Option`.
-/

namespace Tui

/-- UTF-8 byte length of one character, as Rust's char::len_utf8 computes it. -/
def charLenUtf8 (c : Char) : Nat :=
  if c.toNat < 0x80 then 1
  else if c.toNat < 0x800 then 2
  else if c.toNat < 0x10000 then 3
  else 4

/-- Byte length of a Rust String holding the given characters (String::len). -/
def strLen (s : List Char) : Nat := (s.map charLenUtf8).sum

/-- Rust String::insert at a byte index. Returns none exactly where Rust
panics: when the index is past the end of the string or does not lie on a
character boundary. -/
def stringInsert : List Char → Nat → Char → Option (List Char)
  | s, 0, c => some (c :: s)
  | [], _ + 1, _ => none
  | d :: rest, i + 1, c =>
      if i + 1 < charLenUtf8 d then none
      else (stringInsert rest (i + 1 - charLenUtf8 d) c).map (fun t => d :: t)

/-- enum InputMode (src/main.rs lines 25-29). -/
inductive InputMode where
  | Normal
  | Editing
  deriving DecidableEq

/-- struct Input (src/main.rs lines 31-36). -/
structure Input where
  input : List Char
  cursor_position : Nat
  input_mode : InputMode
  messages : List (List Char)
  deriving DecidableEq

/-- impl Default for Input (src/main.rs lines 38-47). -/
def inputDefault : Input :=
  { input := [], cursor_position := 0, input_mode := InputMode.Normal,
    messages := [] }

/-- Input::clamp_cursor (src/main.rs lines 78-80): new_cursor_pos.clamp(0,
self.input.len()). The lower bound is vacuous on usize, and self.input.len()
is the BYTE length of the string. -/
def clamp_cursor (self : Input) (new_cursor_pos : Nat) : Nat :=
  min new_cursor_pos (strLen self.input)

/-- Input::move_cursor_left (src/main.rs lines 50-53). -/
def move_cursor_left (self : Input) : Input :=
  { self with cursor_position := clamp_cursor self (self.cursor_position - 1) }

/-- Input::move_cursor_right (src/main.rs lines 55-58). -/
def move_cursor_right (self : Input) : Input :=
  { self with cursor_position := clamp_cursor self (self.cursor_position + 1) }

/-- Input::enter_char (src/main.rs lines 60-64): String::insert at the byte
index cursor_position (none where Rust panics), then move_cursor_right on
the updated string. -/
def enter_char (self : Input) (new_char : Char) : Option Input :=
  (stringInsert self.input self.cursor_position new_char).map
    (fun s => move_cursor_right { self with input := s })

/-- Input::delete_char (src/main.rs lines 66-76): chars().take(cursor - 1)
chained with chars().skip(cursor) — CHARACTER-indexed — then
move_cursor_left. -/
def delete_char (self : Input) : Input :=
  if self.cursor_position ≠ 0 then
    move_cursor_left
      { self with
        input := self.input.take (self.cursor_position - 1) ++
          self.input.drop self.cursor_position }
  else self

/-- Input::reset_cursor (src/main.rs lines 82-84). -/
def reset_cursor (self : Input) : Input :=
  { self with cursor_position := 0 }

/-- Input::submit_message (src/main.rs lines 86-90): push a copy of the
content onto messages, clear the content, reset the cursor. -/
def submit_message (self : Input) : Input :=
  reset_cursor { self with messages := self.messages ++ [self.input], input := [] }

/-- struct App (src/main.rs lines 12-14). -/
structure App where
  show_popup : Bool
  deriving DecidableEq

/-- App::new (src/main.rs lines 20-24). -/
def appNew : App := { show_popup := false }

/-- struct ScrollState (src/main.rs lines 15-18). -/
structure ScrollState where
  vertical_scroll : Nat
  deriving DecidableEq

/-- max_scroll as computed in run_app and ui: (entry_count as i32 - height as
i32).max(0) as usize, i.e. truncated subtraction on Nat (counts below 2^31). -/
def max_scroll (entry_count viewport_height : Nat) : Nat :=
  entry_count - viewport_height

/-- KeyCode::Up handler body (src/main.rs lines 133-138), also
MouseEventKind::ScrollUp (lines 198-203): decrement, floored at 0. -/
def scroll_up (v : Nat) : Nat := if 0 < v then v - 1 else v

/-- KeyCode::Down handler body (src/main.rs lines 139-146), also
MouseEventKind::ScrollDown (lines 190-197): increment, capped at max_scroll. -/
def scroll_down (entry_count viewport_height v : Nat) : Nat :=
  if v < max_scroll entry_count viewport_height then v + 1 else v

/-- crossterm KeyCode, restricted to the variants the program consumes; all
other key codes behave like OtherKey (the wildcard arm). -/
inductive KeyCode where
  | CharKey (c : Char)
  | Up
  | Down
  | Enter
  | Backspace
  | Left
  | Right
  | OtherKey
  deriving DecidableEq

/-- A crossterm key event: code, CONTROL modifier flag, and whether the
event kind is Press. -/
structure KeyEvent where
  code : KeyCode
  ctrl : Bool
  press : Bool
  deriving DecidableEq

/-- crossterm MouseEventKind, restricted to the consumed variants. -/
inductive MouseKind where
  | ScrollDown
  | ScrollUp
  | OtherMouse
  deriving DecidableEq

/-- A crossterm event: key, mouse, or anything else (resize, focus, ...). -/
inductive Event where
  | Key (k : KeyEvent)
  | Mouse (m : MouseKind)
  | OtherEvent
  deriving DecidableEq

/-- The mutable state run_app threads through the loop: app flags, input
buffer, shared scroll state. -/
structure LoopState where
  app : App
  input : Input
  scroll : ScrollState
  deriving DecidableEq

/-- Result of one loop iteration: return Ok (quit), a Rust panic, or the next
state. -/
inductive Outcome where
  | Quit
  | Panicked
  | Continue (s : LoopState)
  deriving DecidableEq

/-- KeyCode::Char('f') with CONTROL (src/main.rs lines 148-158): flip
show_popup and swap the input mode. -/
def toggle_popup (s : LoopState) : LoopState :=
  { s with
    app := { show_popup := !s.app.show_popup },
    input := { s.input with input_mode :=
      match s.input.input_mode with
      | InputMode.Normal => InputMode.Editing
      | InputMode.Editing => InputMode.Normal } }

/-- The key-event dispatch of run_app (src/main.rs lines 126-186), with the
match arms in source order: Char('q') quits regardless of mode and modifiers,
Up/Down scroll, Ctrl+'f' toggles, and Enter/Char/Backspace/Left/Right act
only in Editing mode. term_height is terminal_size.height. -/
def handleKey (term_height : Nat) (s : LoopState) (key : KeyEvent) : Outcome :=
  if key.press then
    match key.code with
    | KeyCode.CharKey c =>
        if c = 'q' then Outcome.Quit
        else if c = 'f' ∧ key.ctrl = true then Outcome.Continue (toggle_popup s)
        else if s.input.input_mode = InputMode.Editing then
          match enter_char s.input c with
          | some i => Outcome.Continue { s with input := i }
          | none => Outcome.Panicked
        else Outcome.Continue s
    | KeyCode.Up =>
        let v := scroll_up s.scroll.vertical_scroll
        Outcome.Continue { s with scroll := { vertical_scroll := v } }
    | KeyCode.Down =>
        let v := scroll_down s.input.messages.length term_height s.scroll.vertical_scroll
        Outcome.Continue { s with scroll := { vertical_scroll := v } }
    | KeyCode.Enter =>
        if s.input.input_mode = InputMode.Editing then
          Outcome.Continue { s with input := submit_message s.input }
        else Outcome.Continue s
    | KeyCode.Backspace =>
        if s.input.input_mode = InputMode.Editing then
          Outcome.Continue { s with input := delete_char s.input }
        else Outcome.Continue s
    | KeyCode.Left =>
        if s.input.input_mode = InputMode.Editing then
          Outcome.Continue { s with input := move_cursor_left s.input }
        else Outcome.Continue s
    | KeyCode.Right =>
        if s.input.input_mode = InputMode.Editing then
          Outcome.Continue { s with input := move_cursor_right s.input }
        else Outcome.Continue s
    | KeyCode.OtherKey => Outcome.Continue s
  else Outcome.Continue s

/-- The mouse-event dispatch of run_app (src/main.rs lines 187-206). -/
def handleMouse (term_height : Nat) (s : LoopState) (m : MouseKind) : LoopState :=
  match m with
  | MouseKind.ScrollDown =>
      let v := scroll_down s.input.messages.length term_height s.scroll.vertical_scroll
      { s with scroll := { vertical_scroll := v } }
  | MouseKind.ScrollUp =>
      let v := scroll_up s.scroll.vertical_scroll
      { s with scroll := { vertical_scroll := v } }
  | MouseKind.OtherMouse => s

/-- One iteration of run_app's event handling (src/main.rs lines 126-206).
The body calls event::read() once; only when the first event is NOT a key
event does the else-if call event::read() a second time, and then only the
second event is examined. e1 and e2 are the next two events the source
would deliver; the returned Nat is how many of them the iteration consumed. -/
def loopStep (term_height : Nat) (s : LoopState) (e1 e2 : Event) : Outcome × Nat :=
  match e1 with
  | Event.Key k => (handleKey term_height s k, 1)
  | _ =>
    match e2 with
    | Event.Mouse m => (Outcome.Continue (handleMouse term_height s m), 2)
    | _ => (Outcome.Continue s, 2)

/-- ratatui Rect, on Nat coordinates. -/
structure Rect where
  x : Nat
  y : Nat
  width : Nat
  height : Nat
  deriving DecidableEq

/-- Percentage constraints of ratatui's Layout are modelled as consecutive
chunks, the chunk for Percentage(p) getting total * p / 100 (integer
division) of the split dimension, laid out from the origin of the area. -/
def percOf (total p : Nat) : Nat := total * p / 100

/-- centered_rect (src/main.rs lines 264-288): a vertical split with
constraints Percentage((100 - percent_y) / 5), Percentage(percent_y),
Percentage((100 - percent_y) / 2), then a horizontal split of the middle
chunk with Percentage((100 - percent_x) / 2), Percentage(percent_x),
Percentage((100 - percent_x) / 2); the result is the middle chunk of the
horizontal split. -/
def centered_rect (percent_x percent_y : Nat) (r : Rect) : Rect :=
  let topH := percOf r.height ((100 - percent_y) / 5)
  let midH := percOf r.height percent_y
  let leftW := percOf r.width ((100 - percent_x) / 2)
  let midW := percOf r.width percent_x
  { x := r.x + leftW, y := r.y + topH, width := midW, height := midH }

/-- What the render pass produces, as far as the claims are concerned. -/
structure UiOutput where
  paneHeight : Nat
  clampedOffset : Nat
  visible : List (List Char)
  popupArea : Option Rect
  cursorPos : Option (Nat × Nat)
  scrollAfter : Nat
  deriving DecidableEq

/-- The render pass ui (src/main.rs lines 209-262). The Layout with margin 1
gives both horizontal chunks height size.height - 2 (saturating); max_scroll
and the visible window use chunks[1].height. ui only reads the scroll state:
scrollAfter records the stored offset as the function leaves it. The terminal
cursor is set only when the popup is shown and the mode is Editing, at
(area.x + cursor_position + 1, area.y + 1). -/
def ui (size : Rect) (app : App) (input : Input) (scroll : ScrollState) :
    UiOutput :=
  let paneHeight := size.height - 2
  let m := max_scroll input.messages.length paneHeight
  let clamped := min scroll.vertical_scroll m
  let visible := (input.messages.drop clamped).take paneHeight
  let area := if app.show_popup then some (centered_rect 40 10 size) else none
  let cpos :=
    match area, input.input_mode with
    | some a, InputMode.Editing => some (a.x + input.cursor_position + 1, a.y + 1)
    | _, _ => none
  { paneHeight := paneHeight, clampedOffset := clamped, visible := visible,
    popupArea := area, cursorPos := cpos,
    scrollAfter := scroll.vertical_scroll }

/-- Error payload of the io::Error values the program can meet. -/
abbrev IOErr := String

/-- The outcomes of every fallible call main performs, supplied as data. -/
structure MainEnv where
  enableRaw : Except IOErr Unit
  enterAltScreen : Except IOErr Unit
  newTerminal : Except IOErr Unit
  runAppResult : Except IOErr Unit
  disableRaw : Except IOErr Unit
  leaveAltScreen : Except IOErr Unit
  showCursorCall : Except IOErr Unit

/-- Observable outcome of main: the value it returns (the process exit status
is non-zero exactly on Except.error), whether the teardown sequence starting
at disable_raw_mode was reached, and the lines printed to standard output. -/
structure MainTrace where
  result : Except IOErr Unit
  teardownRan : Bool
  stdoutLines : List String

/-- Exit status of a Rust process whose main returns Result: 0 on Ok, 1 on
Err. -/
def exitCode : Except IOErr Unit → Nat
  | Except.ok _ => 0
  | Except.error _ => 1

/-- main (src/main.rs lines 92-116). Every ? propagates the error out of main
immediately; on the normal path the teardown runs, the goodbye line is
printed, and a loop error is printed (Debug-formatted, modelled as the raw
payload) before returning Ok. -/
def mainFn (env : MainEnv) : MainTrace :=
  match env.enableRaw with
  | Except.error e => { result := Except.error e, teardownRan := false, stdoutLines := [] }
  | Except.ok _ =>
    match env.enterAltScreen with
    | Except.error e => { result := Except.error e, teardownRan := false, stdoutLines := [] }
    | Except.ok _ =>
      match env.newTerminal with
      | Except.error e => { result := Except.error e, teardownRan := false, stdoutLines := [] }
      | Except.ok _ =>
        let res := env.runAppResult
        match env.disableRaw with
        | Except.error e => { result := Except.error e, teardownRan := true, stdoutLines := [] }
        | Except.ok _ =>
          match env.leaveAltScreen with
          | Except.error e => { result := Except.error e, teardownRan := true, stdoutLines := [] }
          | Except.ok _ =>
            match env.showCursorCall with
            | Except.error e => { result := Except.error e, teardownRan := true, stdoutLines := [] }
            | Except.ok _ =>
              match res with
              | Except.error err =>
                  { result := Except.ok (), teardownRan := true,
                    stdoutLines := ["Bye from Hyprland Wiki!", err] }
              | Except.ok _ =>
                  { result := Except.ok (), teardownRan := true,
                    stdoutLines := ["Bye from Hyprland Wiki!"] }

/-- A scroll operation as dispatched by the loop; keyboard Up/Down and mouse
ScrollUp/ScrollDown route to the same two transitions. A down operation
carries the entry count and the terminal height of its iteration. -/
inductive ScrollOp where
  | up
  | down (entry_count term_height : Nat)
  deriving DecidableEq

/-- Apply one scroll operation to the stored offset. -/
def applyScrollOp (v : Nat) : ScrollOp → Nat
  | ScrollOp.up => scroll_up v
  | ScrollOp.down n h => scroll_down n h v

/-- Apply a sequence of scroll operations to the stored offset. -/
def applyScrollOps (ops : List ScrollOp) (v : Nat) : Nat :=
  ops.foldl applyScrollOp v

/-- The five Text-Edit Buffer operations. -/
inductive BufferOp where
  | insert (c : Char)
  | deleteBackward
  | moveLeft
  | moveRight
  | submit
  deriving DecidableEq

/-- Apply one buffer operation; none models the panic inside enter_char. -/
def applyBufferOp (i : Input) : BufferOp → Option Input
  | BufferOp.insert c => enter_char i c
  | BufferOp.deleteBackward => some (delete_char i)
  | BufferOp.moveLeft => some (move_cursor_left i)
  | BufferOp.moveRight => some (move_cursor_right i)
  | BufferOp.submit => some (submit_message i)

/-- Apply a sequence of buffer operations. -/
def applyBufferOps (i : Input) : List BufferOp → Option Input
  | [] => some i
  | op :: ops => (applyBufferOp i op).bind (fun j => applyBufferOps j ops)

/-- The cursor invariant with the cursor measured in UTF-8 bytes of the
content (what clamp_cursor actually enforces). -/
abbrev ByteCursorInv (i : Input) : Prop := i.cursor_position ≤ strLen i.input

/-- The cursor invariant as the spec states it, measured in characters. -/
abbrev CharCursorInv (i : Input) : Prop := i.cursor_position ≤ i.input.length

/-- Both fields C10 is about, read off an outcome: holds when the outcome
carries a state whose show_popup and input_mode agree with s (vacuously for
Quit and Panicked, which carry no state). -/
def keepsModeFields (s : LoopState) : Outcome → Prop
  | Outcome.Continue t =>
      t.app.show_popup = s.app.show_popup ∧
        t.input.input_mode = s.input.input_mode
  | _ => True

/-! Helper lemmas shared by the claim theorems. -/

theorem charLenUtf8_pos (c : Char) : 1 ≤ charLenUtf8 c := by
  unfold charLenUtf8
  repeat' split
  all_goals omega

theorem length_le_strLen (s : List Char) : s.length ≤ strLen s := by
  induction s with
  | nil => simp [strLen]
  | cons d t ih =>
      have hd := charLenUtf8_pos d
      have ih' : t.length ≤ (t.map charLenUtf8).sum := ih
      simp only [strLen, List.map_cons, List.sum_cons, List.length_cons]
      omega

theorem byteInv_move_cursor_left (i : Input) : ByteCursorInv (move_cursor_left i) :=
  Nat.min_le_right _ _

theorem byteInv_move_cursor_right (i : Input) : ByteCursorInv (move_cursor_right i) :=
  Nat.min_le_right _ _

theorem byteInv_delete_char (i : Input) : ByteCursorInv (delete_char i) := by
  unfold delete_char
  split
  · exact byteInv_move_cursor_left _
  · rename_i hcond
    have h0 : i.cursor_position = 0 := not_not.mp hcond
    show i.cursor_position ≤ strLen i.input
    rw [h0]
    exact Nat.zero_le _

theorem byteInv_submit_message (i : Input) : ByteCursorInv (submit_message i) :=
  Nat.zero_le _

theorem enter_char_eq (i : Input) (c : Char) (j : Input)
    (h : enter_char i c = some j) :
    ∃ t, stringInsert i.input i.cursor_position c = some t ∧
      j = move_cursor_right { i with input := t } := by
  unfold enter_char at h
  cases hs : stringInsert i.input i.cursor_position c with
  | none => rw [hs] at h; exact absurd h (by simp)
  | some t =>
      rw [hs] at h
      simp only [Option.map_some', Option.some.injEq] at h
      exact ⟨t, rfl, h.symm⟩

theorem byteInv_enter_char (i : Input) (c : Char) (j : Input)
    (h : enter_char i c = some j) : ByteCursorInv j := by
  obtain ⟨t, _, hj⟩ := enter_char_eq i c j h
  rw [hj]
  exact byteInv_move_cursor_right _

theorem byteInv_applyBufferOp (i : Input) (op : BufferOp) (j : Input)
    (h : applyBufferOp i op = some j) : ByteCursorInv j := by
  cases op with
  | insert c => exact byteInv_enter_char i c j h
  | deleteBackward =>
      simp only [applyBufferOp, Option.some.injEq] at h
      rw [← h]; exact byteInv_delete_char i
  | moveLeft =>
      simp only [applyBufferOp, Option.some.injEq] at h
      rw [← h]; exact byteInv_move_cursor_left i
  | moveRight =>
      simp only [applyBufferOp, Option.some.injEq] at h
      rw [← h]; exact byteInv_move_cursor_right i
  | submit =>
      simp only [applyBufferOp, Option.some.injEq] at h
      rw [← h]; exact byteInv_submit_message i

theorem byteInv_applyBufferOps (ops : List BufferOp) :
    ∀ i j : Input, ByteCursorInv i → applyBufferOps i ops = some j →
      ByteCursorInv j := by
  induction ops with
  | nil =>
      intro i j hi h
      simp only [applyBufferOps, Option.some.injEq] at h
      rw [← h]; exact hi
  | cons op ops ih =>
      intro i j hi h
      cases hop : applyBufferOp i op with
      | none => rw [applyBufferOps, hop] at h; exact absurd h (by simp)
      | some k =>
          rw [applyBufferOps, hop] at h
          exact ih k j (byteInv_applyBufferOp i op k hop) h

theorem move_cursor_left_input_mode (i : Input) :
    (move_cursor_left i).input_mode = i.input_mode := rfl

theorem move_cursor_right_input_mode (i : Input) :
    (move_cursor_right i).input_mode = i.input_mode := rfl

theorem submit_message_input_mode (i : Input) :
    (submit_message i).input_mode = i.input_mode := rfl

theorem delete_char_input_mode (i : Input) :
    (delete_char i).input_mode = i.input_mode := by
  unfold delete_char
  split <;> rfl

theorem enter_char_input_mode (i : Input) (c : Char) (j : Input)
    (h : enter_char i c = some j) : j.input_mode = i.input_mode := by
  obtain ⟨t, _, hj⟩ := enter_char_eq i c j h
  rw [hj]
  rfl

/-! Claim theorems. -/

/-- C1: insert does NOT use character-index semantics. From the initial empty
buffer, inserting 'é' leaves the cursor at 1 — a byte offset inside the
two-byte UTF-8 encoding of 'é' — and the next insert calls String::insert at
that non-boundary byte index, which panics (modelled as none). So insert
splices at the cursor's byte index, not its character index, and is not even
defined at every character-valid cursor position. -/
theorem c1_insert_is_byte_indexed_and_panics :
    enter_char inputDefault 'é' =
      some { input := ['é'], cursor_position := 1,
             input_mode := InputMode.Normal, messages := [] } ∧
    enter_char { input := ['é'], cursor_position := 1,
                 input_mode := InputMode.Normal, messages := [] } 'a' = none :=
  ⟨by decide, by decide⟩

/-- C2: the buffer operations are not all total on the invariant-satisfying
domain: the state with content "é" and cursor 1 satisfies the spec's cursor
invariant (1 ≤ 1 character), yet insert('a') panics there (String::insert at
byte index 1, inside the encoding of 'é'). -/
theorem c2_insert_not_total_on_invariant_domain :
    CharCursorInv { input := ['é'], cursor_position := 1,
                    input_mode := InputMode.Editing, messages := [] } ∧
    enter_char { input := ['é'], cursor_position := 1,
                 input_mode := InputMode.Editing, messages := [] } 'a' = none :=
  ⟨by decide, by decide⟩

/-- C3 counterexample: with the cursor measured in characters the invariant is
NOT preserved: the state with content "é" and cursor 1 satisfies it, but
move_cursor_right clamps against the byte length 2 and yields cursor 2, which
exceeds the 1-character content length. -/
theorem c3_char_measured_invariant_not_preserved :
    CharCursorInv { input := ['é'], cursor_position := 1,
                    input_mode := InputMode.Editing, messages := [] } ∧
    ¬ CharCursorInv (move_cursor_right
        { input := ['é'], cursor_position := 1,
          input_mode := InputMode.Editing, messages := [] }) :=
  ⟨by decide, by decide⟩

/-- C3 amended: the cursor invariant holds with the cursor measured in UTF-8
bytes of the content: 0 ≤ cursor ≤ byte-length holds in the initial state and
after every sequence of buffer operations that returns (insert panics rather
than break the invariant). -/
theorem c3_byte_measured_invariant_holds :
    ByteCursorInv inputDefault ∧
    ∀ (ops : List BufferOp) (i : Input),
      applyBufferOps inputDefault ops = some i → ByteCursorInv i := by
  constructor
  · exact Nat.zero_le _
  · intro ops i h
    exact byteInv_applyBufferOps ops inputDefault i (Nat.zero_le _) h

/-- Witness for C3: the invariant after the operation sequence [insert 'a']. -/
theorem c3_byte_measured_invariant_holds_witness :
    ByteCursorInv inputDefault ∧
    ByteCursorInv { input := ['a'], cursor_position := 1,
                    input_mode := InputMode.Normal, messages := [] } :=
  ⟨c3_byte_measured_invariant_holds.1,
   c3_byte_measured_invariant_holds.2 [BufferOp.insert 'a']
     { input := ['a'], cursor_position := 1,
       input_mode := InputMode.Normal, messages := [] } (by decide)⟩

/-- C4: for every terminal size, buffer state and sequence of scroll
operations, the effective offset the render pass uses equals
min(stored, max(0, entry_count - pane_height)) where pane_height is the
height of the content pane at render time, hence it never exceeds
max(0, entry_count - pane_height); and the render pass leaves the stored
offset unchanged. -/
theorem c4_effective_scroll_is_display_clamped (size : Rect) (app : App)
    (input : Input) (ops : List ScrollOp) :
    (ui size app input { vertical_scroll := applyScrollOps ops 0 }).clampedOffset =
      min (applyScrollOps ops 0)
        (max_scroll input.messages.length (size.height - 2)) ∧
    (ui size app input { vertical_scroll := applyScrollOps ops 0 }).clampedOffset ≤
      max_scroll input.messages.length (size.height - 2) ∧
    (ui size app input { vertical_scroll := applyScrollOps ops 0 }).scrollAfter =
      applyScrollOps ops 0 :=
  ⟨rfl, Nat.min_le_right _ _, rfl⟩

/-- C5: one iteration of the event loop can consume two events and discard
the first without dispatching it: with 50 entries, terminal height 10 and
stored scroll 5, and the next two pending events being mouse ScrollDown then
mouse ScrollUp, the iteration consumes both events and applies only the
second (the scroll becomes 4; a dispatched ScrollDown would have produced 6,
or 5 if both had been applied). -/
theorem c5_iteration_consumes_two_events :
    loopStep 10
      { app := { show_popup := false },
        input := { input := [], cursor_position := 0,
                   input_mode := InputMode.Normal,
                   messages := List.replicate 50 ['m'] },
        scroll := { vertical_scroll := 5 } }
      (Event.Mouse MouseKind.ScrollDown) (Event.Mouse MouseKind.ScrollUp) =
    (Outcome.Continue
      { app := { show_popup := false },
        input := { input := [], cursor_position := 0,
                   input_mode := InputMode.Normal,
                   messages := List.replicate 50 ['m'] },
        scroll := { vertical_scroll := 4 } }, 2) := by
  rfl

/-- Environment in which terminal-mode setup fails and everything else would
succeed. -/
def c6FailEnv : MainEnv :=
  { enableRaw := Except.error "enable_raw_mode failed",
    enterAltScreen := Except.ok (), newTerminal := Except.ok (),
    runAppResult := Except.ok (), disableRaw := Except.ok (),
    leaveAltScreen := Except.ok (), showCursorCall := Except.ok () }

/-- C6 counterexample: when terminal-mode setup fails, main propagates the
error with ?, so the process exits with status 1 (not 0), the teardown never
runs, and nothing is printed to standard output. -/
theorem c6_setup_failure_exits_nonzero :
    exitCode (mainFn c6FailEnv).result = 1 ∧
    (mainFn c6FailEnv).teardownRan = false ∧
    (mainFn c6FailEnv).stdoutLines = [] :=
  ⟨rfl, rfl, rfl⟩

/-- C6 amended: only a failure of the event loop (the blocking read) is
handled as described: when setup and teardown succeed and run_app returns an
error, main still runs the teardown, prints the failure to standard output
after the goodbye line, and exits 0. -/
theorem c6_loop_failure_exits_zero (env : MainEnv) (e : IOErr)
    (h1 : env.enableRaw = Except.ok ()) (h2 : env.enterAltScreen = Except.ok ())
    (h3 : env.newTerminal = Except.ok ()) (h4 : env.disableRaw = Except.ok ())
    (h5 : env.leaveAltScreen = Except.ok ())
    (h6 : env.showCursorCall = Except.ok ())
    (hr : env.runAppResult = Except.error e) :
    (mainFn env).result = Except.ok () ∧
    exitCode (mainFn env).result = 0 ∧
    (mainFn env).teardownRan = true ∧
    (mainFn env).stdoutLines = ["Bye from Hyprland Wiki!", e] := by
  have hm : mainFn env =
      { result := Except.ok (), teardownRan := true,
        stdoutLines := ["Bye from Hyprland Wiki!", e] } := by
    unfold mainFn
    rw [h1, h2, h3, h4, h5, h6, hr]
  rw [hm]
  exact ⟨rfl, rfl, rfl, rfl⟩

/-- Environment in which the blocking event read fails and every terminal
call succeeds. -/
def c6ReadFailEnv : MainEnv :=
  { enableRaw := Except.ok (), enterAltScreen := Except.ok (),
    newTerminal := Except.ok (),
    runAppResult := Except.error "event read failed",
    disableRaw := Except.ok (), leaveAltScreen := Except.ok (),
    showCursorCall := Except.ok () }

/-- Witness for the amended C6 at a concrete environment. -/
theorem c6_loop_failure_exits_zero_witness :
    (mainFn c6ReadFailEnv).result = Except.ok () ∧
    exitCode (mainFn c6ReadFailEnv).result = 0 ∧
    (mainFn c6ReadFailEnv).teardownRan = true ∧
    (mainFn c6ReadFailEnv).stdoutLines =
      ["Bye from Hyprland Wiki!", "event read failed"] :=
  c6_loop_failure_exits_zero c6ReadFailEnv "event read failed"
    rfl rfl rfl rfl rfl rfl rfl

/-- C7: for every buffer state, submit appends the current content as one new
entry at the end of the message log (so every existing entry is kept, in
place), then resets the content to empty and the cursor to 0; the input mode
is untouched. -/
theorem c7_submit_appends_entry_and_resets (i : Input) :
    (submit_message i).messages = i.messages ++ [i.input] ∧
    (submit_message i).input = [] ∧
    (submit_message i).cursor_position = 0 ∧
    (submit_message i).input_mode = i.input_mode :=
  ⟨rfl, rfl, rfl, rfl⟩

/-- C8: on every state satisfying the character-measured cursor invariant,
delete_char is the identity when the cursor is 0; otherwise it removes
exactly the character immediately before the cursor (index cursor - 1),
shortening the content by one, and moves the cursor left by one, leaving the
message log and the mode unchanged. -/
theorem c8_delete_backward_removes_char_before_cursor (i : Input)
    (h : CharCursorInv i) :
    (i.cursor_position = 0 → delete_char i = i) ∧
    (0 < i.cursor_position →
      (delete_char i).input = i.input.eraseIdx (i.cursor_position - 1) ∧
      (delete_char i).input.length = i.input.length - 1 ∧
      (delete_char i).cursor_position = i.cursor_position - 1 ∧
      (delete_char i).messages = i.messages ∧
      (delete_char i).input_mode = i.input_mode) := by
  constructor
  · intro h0
    simp [delete_char, h0]
  · intro hpos
    have hne : i.cursor_position ≠ 0 := Nat.pos_iff_ne_zero.mp hpos
    have hdel : delete_char i = move_cursor_left { i with input := i.input.take (i.cursor_position - 1) ++ i.input.drop i.cursor_position } := by
      simp [delete_char, hne]
    have hinput : (delete_char i).input =
        i.input.take (i.cursor_position - 1) ++
          i.input.drop i.cursor_position := by
      rw [hdel]; rfl
    have hc : i.cursor_position ≤ i.input.length := h
    have hlen : (delete_char i).input.length = i.input.length - 1 := by
      rw [hinput, List.length_append, List.length_take, List.length_drop]
      rw [Nat.min_eq_left (by omega)]
      omega
    have herase : i.input.eraseIdx (i.cursor_position - 1) =
        i.input.take (i.cursor_position - 1) ++
          i.input.drop i.cursor_position := by
      have hsucc : i.cursor_position - 1 + 1 = i.cursor_position :=
        Nat.succ_pred_eq_of_pos hpos
      rw [List.eraseIdx_eq_take_drop_succ, hsucc]
    have hcur : (delete_char i).cursor_position = i.cursor_position - 1 := by
      have hstr := length_le_strLen
        (i.input.take (i.cursor_position - 1) ++ i.input.drop i.cursor_position)
      have hlen2 : (i.input.take (i.cursor_position - 1) ++
          i.input.drop i.cursor_position).length = i.input.length - 1 := by
        rw [← hinput]; exact hlen
      rw [hdel]
      simp only [move_cursor_left, clamp_cursor]
      exact Nat.min_eq_left (by omega)
    have hmsg : (delete_char i).messages = i.messages := by rw [hdel]; rfl
    have hmode : (delete_char i).input_mode = i.input_mode := by rw [hdel]; rfl
    exact ⟨by rw [hinput, herase], hlen, hcur, hmsg, hmode⟩

/-- The start state of the spec's deletion scenario: content "abc", cursor 3. -/
def c8Start : Input :=
  { input := ['a', 'b', 'c'], cursor_position := 3,
    input_mode := InputMode.Editing, messages := [] }

/-- Witness for C8 at the scenario state: deleting from "abc" with cursor 3
removes 'c' and moves the cursor to 2. -/
theorem c8_delete_backward_removes_char_before_cursor_witness :
    (delete_char c8Start).input = c8Start.input.eraseIdx (c8Start.cursor_position - 1) ∧
    (delete_char c8Start).input.length = c8Start.input.length - 1 ∧
    (delete_char c8Start).cursor_position = c8Start.cursor_position - 1 ∧
    (delete_char c8Start).messages = c8Start.messages ∧
    (delete_char c8Start).input_mode = c8Start.input_mode :=
  (c8_delete_backward_removes_char_before_cursor c8Start (by decide)).2 (by decide)

/-- The full terminal area used in the C9 computation: 200 columns, 100 rows. -/
def c9Area : Rect := { x := 0, y := 0, width := 200, height := 100 }

/-- C9: on a 200x100 terminal the popup rectangle has width 40% (80) and
height 10% (10) and equal left and right margins (60 each), but its top
margin is 18 rows while 72 rows remain below it: the vertical split uses
constraint (100 - percent_y) / 5 = 18 on top against (100 - percent_y) / 2 =
45 below, so the popup is NOT vertically centered. -/
theorem c9_popup_not_vertically_centered :
    (centered_rect 40 10 c9Area).width = 80 ∧
    (centered_rect 40 10 c9Area).height = 10 ∧
    (centered_rect 40 10 c9Area).x - c9Area.x = 60 ∧
    c9Area.x + c9Area.width -
      ((centered_rect 40 10 c9Area).x + (centered_rect 40 10 c9Area).width) = 60 ∧
    (centered_rect 40 10 c9Area).y - c9Area.y = 18 ∧
    c9Area.y + c9Area.height -
      ((centered_rect 40 10 c9Area).y + (centered_rect 40 10 c9Area).height) = 72 ∧
    (18 : Nat) ≠ 72 := by
  decide

/-- C10: pressing Enter in Editing mode submits the buffer and changes
neither show_popup nor the input mode; more generally, every key event other
than Ctrl+'f', and every mouse event, leaves show_popup and the input mode
unchanged in whatever state the dispatch produces. -/
theorem c10_only_ctrl_f_toggles_popup_and_mode (th : Nat) (s : LoopState)
    (k : KeyEvent) (m : MouseKind)
    (hk : ¬(k.code = KeyCode.CharKey 'f' ∧ k.ctrl = true)) :
    keepsModeFields s (handleKey th s k) ∧
    (s.input.input_mode = InputMode.Editing →
      handleKey th s { code := KeyCode.Enter, ctrl := false, press := true } =
        Outcome.Continue { s with input := submit_message s.input }) ∧
    keepsModeFields s (Outcome.Continue (handleMouse th s m)) := by
  refine ⟨?_, ?_, ?_⟩
  · obtain ⟨code, ctrl, press⟩ := k
    cases press with
    | false => exact ⟨rfl, rfl⟩
    | true =>
        cases code with
        | CharKey c =>
            by_cases hq : c = 'q'
            · simp [handleKey, hq, keepsModeFields]
            · by_cases hf : c = 'f' ∧ ctrl = true
              · exact absurd ⟨by rw [hf.1], hf.2⟩ hk
              · by_cases hmode : s.input.input_mode = InputMode.Editing
                · cases henter : enter_char s.input c with
                  | none =>
                      simp [handleKey, hq, hf, hmode, henter, keepsModeFields]
                  | some j =>
                      have hj := enter_char_input_mode s.input c j henter
                      simp [handleKey, hq, hf, hmode, henter, keepsModeFields, hj]
                · simp [handleKey, hq, hf, hmode, keepsModeFields]
        | Up => exact ⟨rfl, rfl⟩
        | Down => exact ⟨rfl, rfl⟩
        | Enter =>
            by_cases hmode : s.input.input_mode = InputMode.Editing
            · simp [handleKey, hmode, keepsModeFields, submit_message_input_mode]
            · simp [handleKey, hmode, keepsModeFields]
        | Backspace =>
            by_cases hmode : s.input.input_mode = InputMode.Editing
            · simp [handleKey, hmode, keepsModeFields, delete_char_input_mode]
            · simp [handleKey, hmode, keepsModeFields]
        | Left =>
            by_cases hmode : s.input.input_mode = InputMode.Editing
            · simp [handleKey, hmode, keepsModeFields, move_cursor_left_input_mode]
            · simp [handleKey, hmode, keepsModeFields]
        | Right =>
            by_cases hmode : s.input.input_mode = InputMode.Editing
            · simp [handleKey, hmode, keepsModeFields, move_cursor_right_input_mode]
            · simp [handleKey, hmode, keepsModeFields]
        | OtherKey => exact ⟨rfl, rfl⟩
  · intro hmode
    simp [handleKey, hmode]
  · cases m with
    | ScrollDown => exact ⟨rfl, rfl⟩
    | ScrollUp => exact ⟨rfl, rfl⟩
    | OtherMouse => exact ⟨rfl, rfl⟩

/-- A concrete Editing-mode state: popup shown, buffer "hi", cursor 2. -/
def c10Start : LoopState :=
  { app := { show_popup := true },
    input := { input := ['h', 'i'], cursor_position := 2,
               input_mode := InputMode.Editing, messages := [] },
    scroll := { vertical_scroll := 0 } }

/-- The Enter key press, without modifiers. -/
def c10EnterKey : KeyEvent :=
  { code := KeyCode.Enter, ctrl := false, press := true }

/-- Witness for C10: pressing Enter on the "hi" Editing state submits and
keeps popup and mode; a mouse event also keeps both. -/
theorem c10_only_ctrl_f_toggles_popup_and_mode_witness :
    keepsModeFields c10Start (handleKey 24 c10Start c10EnterKey) ∧
    handleKey 24 c10Start c10EnterKey =
      Outcome.Continue { c10Start with input := submit_message c10Start.input } ∧
    keepsModeFields c10Start
      (Outcome.Continue (handleMouse 24 c10Start MouseKind.OtherMouse)) :=
  ⟨(c10_only_ctrl_f_toggles_popup_and_mode 24 c10Start c10EnterKey
      MouseKind.OtherMouse (by decide)).1,
   (c10_only_ctrl_f_toggles_popup_and_mode 24 c10Start c10EnterKey
      MouseKind.OtherMouse (by decide)).2.1 rfl,
   (c10_only_ctrl_f_toggles_popup_and_mode 24 c10Start c10EnterKey
      MouseKind.OtherMouse (by decide)).2.2⟩

end Tui
